import Mathlib

/-
Shallow embedding of src/local/skill_subscriber.py (Alexa-Chromecast-Skill):
the Subscriber class's heartbeat loop (ping), subscription confirmation
(confirm_subscription), unsubscribe, shutdown, notification dispatch
(dispatch_notification) and the nested SNSRequestHandler.do_POST.

External collaborators (boto3 SNS client, miniupnpc, threading) are modelled
by boolean oracles for their success/failure and by effect traces recording
the calls the code makes.  Timestamps are seconds as Nat; Python's
`(now - t).total_seconds() > k` becomes `now - t > k` (Nat subtraction
truncates at 0, matching a negative float compared against a positive bound).
Log-only calls (logger.*) are not traced except where a claim mentions them.
-/

namespace AlexaChromecast

/-- PING_SECS constant from the source (600 seconds). -/
def PING_SECS : Nat := 600

/-- Python exceptions that can arise in the modelled code paths.  `systemExit`
models the SystemExit raised by sys.exit(code). -/
inductive Exc where
  | keyError (key : String)
  | typeError
  | attributeError
  | jsonDecodeError
  | runtimeError (msg : String)
  | handlerExc
  | systemExit (code : Nat)
  deriving DecidableEq, Repr

/-- Mutable Subscriber fields shared by the heartbeat thread and the dispatch
path: `stopped`, `last_ping_sent` (False/None initially, a timestamp once a
ping was published) and `last_ping_received` (None until a ping round-trips
back). -/
structure SubscriberState where
  stopped : Bool
  last_ping_sent : Option Nat
  last_ping_received : Option Nat
  deriving DecidableEq, Repr

/-- Outcome of one iteration of the `ping` loop body: re-exec the process
(os.execl in `restart`), publish a ping and stamp `last_ping_sent`, or sleep
one second. -/
inductive PingAction where
  | restart
  | publishPing
  | sleep
  deriving DecidableEq, Repr

/-- Guard of the ping cycle (line 102): `not self.last_ping_sent or
(datetime.now() - self.last_ping_sent).total_seconds() > PING_SECS`. -/
def pingDue (s : SubscriberState) (now : Nat) : Bool :=
  match s.last_ping_sent with
  | none => true
  | some t => decide (now - t > PING_SECS)

/-- Body of the due branch of the `ping` loop (lines 103-118).  The
subscriber-count query (list_subscriptions_by_topic) is log-only and not
traced.  If `last_ping_received` is set (truthy) and stale by more than
2*PING_SECS, the code calls `self.restart()` (os.execl, which never returns,
so the publish below it is not reached); otherwise it publishes a ping and
sets `last_ping_sent` to the current time. -/
def pingCycle (s : SubscriberState) (now : Nat) : PingAction × SubscriberState :=
  match s.last_ping_received with
  | some r =>
      if now - r > 2 * PING_SECS then (PingAction.restart, s)
      else (PingAction.publishPing, { s with last_ping_sent := some now })
  | none => (PingAction.publishPing, { s with last_ping_sent := some now })

/-- One iteration of the `while not self.stopped` body of `Subscriber.ping`
(lines 101-120), for a state in which the loop is still running. -/
def pingStep (s : SubscriberState) (now : Nat) : PingAction × SubscriberState :=
  if pingDue s now then pingCycle s now else (PingAction.sleep, s)

/-- State owned by `confirm_subscription`: whether `self.ping_thread` has
already been started. -/
structure ConfirmState where
  ping_thread_started : Bool
  deriving DecidableEq, Repr

/-- Outcome of `confirm_subscription`: normal return, or process termination
via sys.exit(code) from the bare `except` handler. -/
inductive ConfirmOutcome where
  | returned
  | sysExit (code : Nat)
  deriving DecidableEq, Repr

/-- Subscriber.confirm_subscription (lines 179-196).  `snsConfirmOk` is the
oracle for the SNS confirm_subscription call succeeding.  On success the code
calls `self.ping_thread.start()`; Python's threading.Thread.start raises
RuntimeError when the thread was already started, which the bare `except`
catches, after which the handler calls sys.exit(1).  Any failure of the SNS
call takes the same except path. -/
def confirm_subscription (snsConfirmOk : Bool) (st : ConfirmState) :
    ConfirmOutcome × ConfirmState :=
  if snsConfirmOk then
    if st.ping_thread_started then
      (ConfirmOutcome.sysExit 1, st)
    else
      (ConfirmOutcome.returned, { st with ping_thread_started := true })
  else
    (ConfirmOutcome.sysExit 1, st)

/-- One entry of the list_subscriptions_by_topic response, with the fields
the code reads: TopicArn, Endpoint, SubscriptionArn. -/
structure Subscription where
  topicArn : String
  endpoint : String
  subscriptionArn : String
  deriving DecidableEq, Repr

/-- The lookup loop of `unsubscribe` (lines 214-217): first subscription whose
TopicArn and Endpoint both match, with early break. -/
def findSubscriptionArn : List Subscription → String → String → Option String
  | [], _, _ => none
  | sub :: rest, topic, url =>
      if sub.topicArn = topic ∧ sub.endpoint = url then some sub.subscriptionArn
      else findSubscriptionArn rest topic url

/-- External calls made by `unsubscribe`, in order. -/
inductive UnsubEff where
  | deletePortMapping
  | listSubscriptionsByTopic
  | snsUnsubscribeCall (arn : String)
  deriving DecidableEq, Repr

/-- Outcome of `unsubscribe`.  `returned` would be a normal return; every
path of the source either raises RuntimeError (failed port release) or ends
in sys.exit(0), so `returned` is never produced (proved below). -/
inductive UnsubOutcome where
  | returned
  | raisedRuntimeError (msg : String)
  | sysExit (code : Nat)
  deriving DecidableEq, Repr

/-- Second half of `unsubscribe` (lines 212-221): list the topic's
subscriptions, find the one matching this endpoint, call SNS unsubscribe only
when a match was found and its arn starts with the 12-character provider
string, then sys.exit(0) unconditionally. -/
def unsubscribeLookup (subs : List Subscription) (topic_arn endpoint_url : String) :
    List UnsubEff × UnsubOutcome :=
  match findSubscriptionArn subs topic_arn endpoint_url with
  | some arn =>
      if arn.take 12 = "arn:aws:sns:" then
        ([UnsubEff.listSubscriptionsByTopic, UnsubEff.snsUnsubscribeCall arn],
         UnsubOutcome.sysExit 0)
      else
        ([UnsubEff.listSubscriptionsByTopic], UnsubOutcome.sysExit 0)
  | none => ([UnsubEff.listSubscriptionsByTopic], UnsubOutcome.sysExit 0)

/-- Subscriber.unsubscribe (lines 198-221).  When the port was not manually
forwarded, `self.upnp.deleteportmapping` runs first; `deletePortMappingOk` is
the oracle for its boolean result.  A falsy result makes the code raise
RuntimeError (lines 209-210), with no try/except around it, so the rest of
`unsubscribe` is skipped. -/
def unsubscribe (manual_port_forward deletePortMappingOk : Bool)
    (subs : List Subscription) (topic_arn endpoint_url : String) :
    List UnsubEff × UnsubOutcome :=
  if manual_port_forward then
    unsubscribeLookup subs topic_arn endpoint_url
  else if deletePortMappingOk then
    let r := unsubscribeLookup subs topic_arn endpoint_url
    (UnsubEff.deletePortMapping :: r.1, r.2)
  else
    ([UnsubEff.deletePortMapping],
     UnsubOutcome.raisedRuntimeError "Failed to remove port forward")

/-- Steps of `shutdown`, in the order the source lists them. -/
inductive ShutdownEff where
  | setStoppedTrue
  | callUnsubscribe
  | serverShutdownCall
  | pingThreadJoin
  deriving DecidableEq, Repr

/-- Outcome of `shutdown`: the early `if self.stopped: return`, a normal fall
through all four statements, or propagation of whatever `unsubscribe` raised
(RuntimeError or SystemExit). -/
inductive ShutdownOutcome where
  | returnedNoOp
  | returned
  | raisedRuntimeError (msg : String)
  | sysExit (code : Nat)
  deriving DecidableEq, Repr

/-- Subscriber.shutdown (lines 126-135).  Statement by statement: the stopped
guard, `self.stopped = True`, `self.unsubscribe()`, `self.server.shutdown()`,
`self.ping_thread.join(5)`.  An exception from `unsubscribe` (including the
SystemExit from sys.exit) propagates, so the last two statements only run if
`unsubscribe` returns normally. -/
def shutdown (st : SubscriberState) (manual_port_forward deletePortMappingOk : Bool)
    (subs : List Subscription) (topic_arn endpoint_url : String) :
    List ShutdownEff × ShutdownOutcome × SubscriberState :=
  if st.stopped then ([], ShutdownOutcome.returnedNoOp, st)
  else
    let st' := { st with stopped := true }
    match unsubscribe manual_port_forward deletePortMappingOk subs topic_arn endpoint_url with
    | (_, UnsubOutcome.raisedRuntimeError m) =>
        ([ShutdownEff.setStoppedTrue, ShutdownEff.callUnsubscribe],
         ShutdownOutcome.raisedRuntimeError m, st')
    | (_, UnsubOutcome.sysExit c) =>
        ([ShutdownEff.setStoppedTrue, ShutdownEff.callUnsubscribe],
         ShutdownOutcome.sysExit c, st')
    | (_, UnsubOutcome.returned) =>
        ([ShutdownEff.setStoppedTrue, ShutdownEff.callUnsubscribe,
          ShutdownEff.serverShutdownCall, ShutdownEff.pingThreadJoin],
         ShutdownOutcome.returned, st')

/-- A decoded notification message: either a JSON object (string keys; the
values the code uses are treated as opaque strings) or any non-subscriptable
value, on which `notification[key]` raises TypeError. -/
inductive Notif where
  | dict (fields : List (String × String))
  | nonDict
  deriving DecidableEq, Repr

/-- Lookup in a JSON object's key/value list (keys are unique in a decoded
JSON object). -/
def assocGet : List (String × String) → String → Option String
  | [], _ => none
  | (k, v) :: rest, key => if k = key then some v else assocGet rest key

/-- Python `notification[key]`: TypeError on a non-dict, KeyError on a
missing key. -/
def notifGet (n : Notif) (key : String) : Except Exc String :=
  match n with
  | Notif.nonDict => Except.error Exc.typeError
  | Notif.dict fields =>
      match assocGet fields key with
      | some v => Except.ok v
      | none => Except.error (Exc.keyError key)

/-- A registered skill; `handleRaises` is the oracle for whether its
handle_command call raises. -/
structure Skill where
  handleRaises : Bool
  deriving DecidableEq, Repr

/-- Python `self.skills.get(name)`: None (here `none`) when absent. -/
def skillsGet : List (String × Skill) → String → Option Skill
  | [], _ => none
  | (k, v) :: rest, key => if k = key then some v else skillsGet rest key

/-- Observable actions of `dispatch_notification`. -/
inductive DispatchEff where
  | setLastPingReceived
  | skillLookup (name : String)
  | handleCommandCall (name room command data : String)
  deriving DecidableEq, Repr

/-- The try block of `dispatch_notification` (lines 227-233).  In order:
`notification['command']`; the ping branch setting `last_ping_received` and
returning; `self.skills.get(notification['handler_name'])`;
`skill.handle_command(...)`, whose callee attribute is resolved before the
arguments (so a None skill raises AttributeError before `notification['room']`
is read), then the argument lookups room, command (already present), data,
then the call itself, which may raise. -/
def dispatchBody (skills : List (String × Skill)) (n : Notif)
    (st : SubscriberState) (now : Nat) :
    SubscriberState × List DispatchEff × Except Exc Unit :=
  match notifGet n "command" with
  | Except.error e => (st, [], Except.error e)
  | Except.ok cmd =>
      if cmd = "ping" then
        ({ st with last_ping_received := some now },
         [DispatchEff.setLastPingReceived], Except.ok ())
      else
        match notifGet n "handler_name" with
        | Except.error e => (st, [], Except.error e)
        | Except.ok hname =>
            match skillsGet skills hname with
            | none => (st, [DispatchEff.skillLookup hname], Except.error Exc.attributeError)
            | some skill =>
                match notifGet n "room" with
                | Except.error e => (st, [DispatchEff.skillLookup hname], Except.error e)
                | Except.ok room =>
                    match notifGet n "data" with
                    | Except.error e => (st, [DispatchEff.skillLookup hname], Except.error e)
                    | Except.ok data =>
                        if skill.handleRaises then
                          (st, [DispatchEff.skillLookup hname,
                                DispatchEff.handleCommandCall hname room cmd data],
                           Except.error Exc.handlerExc)
                        else
                          (st, [DispatchEff.skillLookup hname,
                                DispatchEff.handleCommandCall hname room cmd data],
                           Except.ok ())

/-- How `dispatch_notification` ended: the try block completed, or its bare
`except` caught exception `e` and logged it. -/
inductive DispatchResult where
  | completed
  | caughtLogged (e : Exc)
  deriving DecidableEq, Repr

/-- Subscriber.dispatch_notification (lines 223-235): the whole body sits in
`try: ... except: logger.exception(...)`, so any exception from the body is
converted into a logged, normal return.  The outer Except layer is the
function's own exception channel, shown below to always be `ok`. -/
def dispatch_notification (skills : List (String × Skill)) (n : Notif)
    (st : SubscriberState) (now : Nat) :
    SubscriberState × List DispatchEff × Except Exc DispatchResult :=
  match dispatchBody skills n st now with
  | (st', effs, Except.ok ()) => (st', effs, Except.ok DispatchResult.completed)
  | (st', effs, Except.error e) => (st', effs, Except.ok (DispatchResult.caughtLogged e))

/-- The `Message` field of a Notification envelope: absent (KeyError), falsy
empty string, present but not valid JSON, or a decoded message. -/
inductive MessageField where
  | missingKey
  | emptyString
  | badJson
  | parsed (n : Notif)
  deriving DecidableEq, Repr

/-- What the POST body decodes to: invalid JSON, JSON without a `Type` key, a
SubscriptionConfirmation (with or without a `Token`), a Notification, or any
other Type value. -/
inductive Envelope where
  | malformedJson
  | missingType
  | subscriptionConfirmation (token : Option String)
  | notification (message : MessageField)
  | otherType (t : String)
  deriving DecidableEq, Repr

/-- Observable actions of do_POST, in source order. -/
inductive PostEff where
  | sendResponse (code : Nat)
  | sendHeader (name value : String)
  | endHeaders
  | readBody
  | callConfirmSubscription
  | callDispatchNotification
  deriving DecidableEq, Repr

/-- How do_POST ended: normal return, or an exception escaping the handler
(do_POST has no try/except of its own). -/
inductive PostOutcome where
  | returned
  | raised (e : Exc)
  deriving DecidableEq, Repr

/-- The first four statements of do_POST (lines 57-61): send_response(200),
send_header('content-type', 'text/html'), end_headers(), rfile.read(...).
They run before the body is parsed, and no response body is ever written. -/
def responseAck : List PostEff :=
  [PostEff.sendResponse 200, PostEff.sendHeader "content-type" "text/html",
   PostEff.endHeaders, PostEff.readBody]

/-- SNSRequestHandler.do_POST (lines 56-74).  After the acknowledgement and
body read, json.loads, `data['Type']`, and the two branches: confirmation
(read `data['Token']`, call instance.confirm_subscription, whose sys.exit
raises SystemExit through do_POST) and notification (the `data['Message']`
truthiness test, json.loads of the message, then
instance.dispatch_notification). -/
def do_POST (env : Envelope) (snsConfirmOk : Bool) (cst : ConfirmState)
    (skills : List (String × Skill)) (st : SubscriberState) (now : Nat) :
    List PostEff × PostOutcome × ConfirmState × SubscriberState :=
  match env with
  | Envelope.malformedJson => (responseAck, PostOutcome.raised Exc.jsonDecodeError, cst, st)
  | Envelope.missingType => (responseAck, PostOutcome.raised (Exc.keyError "Type"), cst, st)
  | Envelope.subscriptionConfirmation token =>
      (match token with
       | none => (responseAck, PostOutcome.raised (Exc.keyError "Token"), cst, st)
       | some _ =>
           match confirm_subscription snsConfirmOk cst with
           | (ConfirmOutcome.returned, cst') =>
               (responseAck ++ [PostEff.callConfirmSubscription],
                PostOutcome.returned, cst', st)
           | (ConfirmOutcome.sysExit c, cst') =>
               (responseAck ++ [PostEff.callConfirmSubscription],
                PostOutcome.raised (Exc.systemExit c), cst', st))
  | Envelope.notification mf =>
      (match mf with
       | MessageField.missingKey =>
           (responseAck, PostOutcome.raised (Exc.keyError "Message"), cst, st)
       | MessageField.emptyString => (responseAck, PostOutcome.returned, cst, st)
       | MessageField.badJson => (responseAck, PostOutcome.raised Exc.jsonDecodeError, cst, st)
       | MessageField.parsed n =>
           let r := dispatch_notification skills n st now
           (responseAck ++ [PostEff.callDispatchNotification],
            PostOutcome.returned, cst, r.1))
  | Envelope.otherType _ => (responseAck, PostOutcome.returned, cst, st)

/-- Every path of `unsubscribe` ends abnormally: either the RuntimeError of a
failed port release, or sys.exit(0).  It never returns normally. -/
theorem unsubscribe_never_returns (mpf ok : Bool) (subs : List Subscription)
    (topic url : String) :
    (unsubscribe mpf ok subs topic url).2 =
        UnsubOutcome.raisedRuntimeError "Failed to remove port forward" ∨
    (unsubscribe mpf ok subs topic url).2 = UnsubOutcome.sysExit 0 := by
  unfold unsubscribe unsubscribeLookup
  cases mpf <;> cases ok <;> simp <;>
    rcases findSubscriptionArn subs topic url with _ | arn <;> simp <;> split <;> simp

/-- C1 counterexample: a state with `last_ping_sent` set (time 0) and no
heartbeat-ack ever received, observed long past every threshold.  The claim
says the cycle restarts regardless of an ack having been received; the code
publishes a ping instead, because the restart guard requires
`last_ping_received` to be truthy. -/
theorem C1_counterexample :
    (pingStep { stopped := false, last_ping_sent := some 0,
                last_ping_received := none } 100000).1 = PingAction.publishPing ∧
    (pingStep { stopped := false, last_ping_sent := some 0,
                last_ping_received := none } 100000).1 ≠ PingAction.restart := by
  decide

/-- C1 (amended): when the cycle is due (`last_ping_sent` unset or older than
PING_SECS), the iteration restarts the process exactly when a heartbeat-ack
has been received at some time `r` with `now - r > 2 * PING_SECS`; if no ack
was ever received, or the last ack is recent, it instead publishes a ping and
records `now` as `last_ping_sent`. -/
theorem C1_theorem (s : SubscriberState) (now : Nat) (hdue : pingDue s now = true) :
    (∀ r, s.last_ping_received = some r → now - r > 2 * PING_SECS →
        pingStep s now = (PingAction.restart, s)) ∧
    (s.last_ping_received = none →
        pingStep s now = (PingAction.publishPing, { s with last_ping_sent := some now })) ∧
    (∀ r, s.last_ping_received = some r → now - r ≤ 2 * PING_SECS →
        pingStep s now = (PingAction.publishPing, { s with last_ping_sent := some now })) := by
  unfold pingStep
  rw [hdue]
  unfold pingCycle
  refine ⟨?_, ?_, ?_⟩
  · intro r hr hgt
    rw [hr]
    simp [hgt]
  · intro hr
    rw [hr]
    simp
  · intro r hr hle
    rw [hr]
    simp [Nat.not_lt.mpr hle]

/-- C1 witness: with no ping yet sent and an ack received at time 0, the cycle
at time 2000 (elapsed 2000 > 1200) restarts. -/
theorem C1_witness :
    pingStep { stopped := false, last_ping_sent := none, last_ping_received := some 0 } 2000 =
      (PingAction.restart,
       { stopped := false, last_ping_sent := none, last_ping_received := some 0 }) :=
  (C1_theorem { stopped := false, last_ping_sent := none, last_ping_received := some 0 }
      2000 (by decide)).1 0 rfl (by decide)

/-- C2 counterexample: two valid confirmation deliveries (both SNS calls
succeed).  The first returns normally and starts the ping thread; the second
finds the thread already started, Thread.start raises RuntimeError, the bare
except catches it and calls sys.exit(1) — the duplicate delivery terminates
the process, contradicting the claim. -/
theorem C2_counterexample :
    (confirm_subscription true { ping_thread_started := false }).1 =
        ConfirmOutcome.returned ∧
    (confirm_subscription true
        (confirm_subscription true { ping_thread_started := false }).2).1 =
      ConfirmOutcome.sysExit 1 := by
  decide

/-- C2 (amended): the first successful confirmation from the unstarted state
returns normally and starts the heartbeat thread; every later delivery (the
thread already started) makes Thread.start raise, which the bare except turns
into sys.exit(1).  The Pending-to-Confirmed transition and the thread start
therefore happen at most once, but a duplicate delivery terminates the
process with exit code 1 instead of being a no-op. -/
theorem C2_theorem (ok : Bool) (st : ConfirmState) :
    (ok = true → st.ping_thread_started = false →
        confirm_subscription ok st =
          (ConfirmOutcome.returned, { ping_thread_started := true })) ∧
    (st.ping_thread_started = true →
        confirm_subscription ok st = (ConfirmOutcome.sysExit 1, st)) := by
  constructor
  · intro hok hst
    unfold confirm_subscription
    rw [hok, hst]
    rfl
  · intro hst
    unfold confirm_subscription
    rw [hst]
    cases ok <;> rfl

/-- C2 witness: a confirmation arriving with the ping thread already started
is answered by sys.exit(1). -/
theorem C2_witness :
    confirm_subscription true { ping_thread_started := true } =
      (ConfirmOutcome.sysExit 1, { ping_thread_started := true }) :=
  (C2_theorem true { ping_thread_started := true }).2 rfl

/-- C3 counterexample: port release fails (deleteportmapping returns falsy)
while a matching, removable subscription exists.  The claim says the failure
is only logged and unsubscribe proceeds to remove the subscription and exit
successfully; the code instead raises RuntimeError before the lookup: no
list call, no SNS unsubscribe, no sys.exit(0). -/
theorem C3_counterexample :
    unsubscribe false false
        [{ topicArn := "arn:aws:sns:us-east-1:1:topic",
           endpoint := "http://1.2.3.4:8080",
           subscriptionArn := "arn:aws:sns:us-east-1:1:topic:sub1" }]
        "arn:aws:sns:us-east-1:1:topic" "http://1.2.3.4:8080" =
      ([UnsubEff.deletePortMapping],
       UnsubOutcome.raisedRuntimeError "Failed to remove port forward") ∧
    (unsubscribe false false
        [{ topicArn := "arn:aws:sns:us-east-1:1:topic",
           endpoint := "http://1.2.3.4:8080",
           subscriptionArn := "arn:aws:sns:us-east-1:1:topic:sub1" }]
        "arn:aws:sns:us-east-1:1:topic" "http://1.2.3.4:8080").2 ≠
      UnsubOutcome.sysExit 0 := by
  constructor
  · rfl
  · decide

/-- C3 (amended): when the port mapping is upnp-owned and its release fails,
`unsubscribe` raises RuntimeError with no surrounding handler: the
subscription lookup and removal are skipped and sys.exit(0) is never reached,
for every subscription list, topic and endpoint.  Release failure is fatal to
the unsubscribe path, not merely reported. -/
theorem C3_theorem (subs : List Subscription) (topic url : String) :
    unsubscribe false false subs topic url =
      ([UnsubEff.deletePortMapping],
       UnsubOutcome.raisedRuntimeError "Failed to remove port forward") := by
  rfl

/-- C4 counterexample: shutdown from a running state with a successful port
release and an empty subscription list.  The trace stops after
setStoppedTrue and callUnsubscribe — `unsubscribe` ends in sys.exit(0), whose
SystemExit propagates, so `server.shutdown()` and `ping_thread.join(5)` are
never executed, contradicting the claim that they run after unsubscribe
returns. -/
theorem C4_counterexample :
    shutdown { stopped := false, last_ping_sent := none, last_ping_received := none }
        false true [] "arn:aws:sns:us-east-1:1:topic" "http://1.2.3.4:8080" =
      ([ShutdownEff.setStoppedTrue, ShutdownEff.callUnsubscribe],
       ShutdownOutcome.sysExit 0,
       { stopped := true, last_ping_sent := none, last_ping_received := none }) ∧
    ShutdownEff.serverShutdownCall ∉
      (shutdown { stopped := false, last_ping_sent := none, last_ping_received := none }
        false true [] "arn:aws:sns:us-east-1:1:topic" "http://1.2.3.4:8080").1 ∧
    ShutdownEff.pingThreadJoin ∉
      (shutdown { stopped := false, last_ping_sent := none, last_ping_received := none }
        false true [] "arn:aws:sns:us-east-1:1:topic" "http://1.2.3.4:8080").1 := by
  refine ⟨rfl, ?_, ?_⟩ <;> decide

/-- C4 (amended): shutdown from a non-stopped state sets StopFlag and invokes
unsubscribe, but `unsubscribe` never returns normally — it raises
RuntimeError on a failed port release or SystemExit(0) via sys.exit — so the
acceptor-stop and heartbeat-join steps are never reached, and shutdown never
falls through normally. -/
theorem C4_theorem (st : SubscriberState) (mpf ok : Bool) (subs : List Subscription)
    (topic url : String) (h : st.stopped = false) :
    (shutdown st mpf ok subs topic url).1 =
      [ShutdownEff.setStoppedTrue, ShutdownEff.callUnsubscribe] ∧
    (shutdown st mpf ok subs topic url).2.2.stopped = true ∧
    (shutdown st mpf ok subs topic url).2.1 ≠ ShutdownOutcome.returned := by
  unfold shutdown
  rw [h]
  simp only [Bool.false_eq_true, if_false]
  rcases unsubscribe_never_returns mpf ok subs topic url with hu | hu <;>
    rcases hr : unsubscribe mpf ok subs topic url with ⟨effs, o⟩ <;>
      rw [hr] at hu <;> simp at hu <;> subst hu <;> simp

/-- C4 witness: a concrete shutdown from a running state never reaches the
acceptor-stop or thread-join steps. -/
theorem C4_witness :
    (shutdown { stopped := false, last_ping_sent := some 1, last_ping_received := some 2 }
        true true [] "t" "u").1 =
      [ShutdownEff.setStoppedTrue, ShutdownEff.callUnsubscribe] ∧
    (shutdown { stopped := false, last_ping_sent := some 1, last_ping_received := some 2 }
        true true [] "t" "u").2.2.stopped = true ∧
    (shutdown { stopped := false, last_ping_sent := some 1, last_ping_received := some 2 }
        true true [] "t" "u").2.1 ≠ ShutdownOutcome.returned :=
  C4_theorem { stopped := false, last_ping_sent := some 1, last_ping_received := some 2 }
    true true [] "t" "u" rfl

/-- C5: when no subscription matches both the topic arn and the bridge's
endpoint url, and the port-mapping release succeeds when attempted (manual
forward, or deleteportmapping truthy), `unsubscribe` raises no error: it ends
in sys.exit(0), makes no SNS unsubscribe call, and still performed the port
release whenever the mapping was upnp-owned. -/
theorem C5_theorem (mpf ok : Bool) (subs : List Subscription) (topic url : String)
    (hnomatch : findSubscriptionArn subs topic url = none)
    (hrelease : mpf = true ∨ ok = true) :
    (unsubscribe mpf ok subs topic url).2 = UnsubOutcome.sysExit 0 ∧
    (∀ arn, UnsubEff.snsUnsubscribeCall arn ∉ (unsubscribe mpf ok subs topic url).1) ∧
    (mpf = false → UnsubEff.deletePortMapping ∈ (unsubscribe mpf ok subs topic url).1) := by
  unfold unsubscribe unsubscribeLookup
  rw [hnomatch]
  rcases hrelease with h | h <;> subst h
  · simp
  · cases mpf <;> simp

/-- C5 witness: an empty subscription list with an upnp-owned mapping whose
release succeeds exits 0, calls no SNS unsubscribe, and released the port. -/
theorem C5_witness :
    (unsubscribe false true [] "t" "u").2 = UnsubOutcome.sysExit 0 ∧
    UnsubEff.snsUnsubscribeCall "a" ∉ (unsubscribe false true [] "t" "u").1 ∧
    UnsubEff.deletePortMapping ∈ (unsubscribe false true [] "t" "u").1 :=
  ⟨(C5_theorem false true [] "t" "u" rfl (Or.inr rfl)).1,
   (C5_theorem false true [] "t" "u" rfl (Or.inr rfl)).2.1 "a",
   (C5_theorem false true [] "t" "u" rfl (Or.inr rfl)).2.2 rfl⟩

/-- Reading a present key of a dict notification yields its value. -/
theorem notifGet_dict_eq (fields : List (String × String)) (key v : String)
    (h : assocGet fields key = some v) :
    notifGet (Notif.dict fields) key = Except.ok v := by
  simp only [notifGet, h]

/-- C6: for every notification object whose `command` field is `ping`,
`dispatch_notification` records `now` as `last_ping_received` and returns at
once: the effect trace is exactly the timestamp update, with no registry
lookup and no handler call, whatever the registry contains. -/
theorem C6_theorem (skills : List (String × Skill)) (fields : List (String × String))
    (st : SubscriberState) (now : Nat)
    (h : assocGet fields "command" = some "ping") :
    dispatch_notification skills (Notif.dict fields) st now =
      ({ st with last_ping_received := some now },
       [DispatchEff.setLastPingReceived], Except.ok DispatchResult.completed) := by
  unfold dispatch_notification dispatchBody
  rw [notifGet_dict_eq fields "command" "ping" h]
  simp

/-- C6 witness: a concrete ping notification, with a populated registry,
only stamps `last_ping_received`. -/
theorem C6_witness :
    dispatch_notification [("tv", { handleRaises := false })]
        (Notif.dict [("command", "ping")])
        { stopped := false, last_ping_sent := none, last_ping_received := none } 42 =
      ({ stopped := false, last_ping_sent := none, last_ping_received := some 42 },
       [DispatchEff.setLastPingReceived], Except.ok DispatchResult.completed) :=
  C6_theorem [("tv", { handleRaises := false })] [("command", "ping")]
    { stopped := false, last_ping_sent := none, last_ping_received := none } 42 rfl

/-- C7: a notification whose `handler_name` is not in the registry is handled
without terminating: `skills.get` yields None, the attribute access on None
raises AttributeError inside the try block, the bare except logs it, and
`dispatch_notification` returns normally (outer channel `ok`), never invoking
a handler and leaving the state unchanged. -/
theorem C7_theorem (skills : List (String × Skill)) (fields : List (String × String))
    (st : SubscriberState) (now : Nat) (cmd hname : String)
    (hc : assocGet fields "command" = some cmd)
    (hcp : cmd ≠ "ping")
    (hh : assocGet fields "handler_name" = some hname)
    (hs : skillsGet skills hname = none) :
    dispatch_notification skills (Notif.dict fields) st now =
      (st, [DispatchEff.skillLookup hname],
       Except.ok (DispatchResult.caughtLogged Exc.attributeError)) := by
  unfold dispatch_notification dispatchBody
  rw [notifGet_dict_eq fields "command" cmd hc,
      notifGet_dict_eq fields "handler_name" hname hh]
  simp [hcp, hs]

/-- C7 witness: a turnOn command for an unregistered handler is caught and
logged, and dispatch returns normally. -/
theorem C7_witness :
    dispatch_notification []
        (Notif.dict [("command", "turnOn"), ("handler_name", "lights")])
        { stopped := false, last_ping_sent := none, last_ping_received := none } 7 =
      ({ stopped := false, last_ping_sent := none, last_ping_received := none },
       [DispatchEff.skillLookup "lights"],
       Except.ok (DispatchResult.caughtLogged Exc.attributeError)) :=
  C7_theorem [] [("command", "turnOn"), ("handler_name", "lights")]
    { stopped := false, last_ping_sent := none, last_ping_received := none } 7
    "turnOn" "lights" rfl (by decide) rfl rfl

/-- C8: every do_POST invocation — malformed body, missing fields,
subscription confirmation (succeeding or exiting), notification, or unknown
type — begins with the same four actions: send 200, send content-type
text/html, end headers (empty body), and only then read the request body.
The acknowledgement is therefore sent before any processing and is
independent of the downstream outcome. -/
theorem C8_theorem (env : Envelope) (snsConfirmOk : Bool) (cst : ConfirmState)
    (skills : List (String × Skill)) (st : SubscriberState) (now : Nat) :
    ∃ rest, (do_POST env snsConfirmOk cst skills st now).1 =
      [PostEff.sendResponse 200, PostEff.sendHeader "content-type" "text/html",
       PostEff.endHeaders, PostEff.readBody] ++ rest := by
  cases env with
  | malformedJson => exact ⟨[], rfl⟩
  | missingType => exact ⟨[], rfl⟩
  | subscriptionConfirmation token =>
      cases token with
      | none => exact ⟨[], rfl⟩
      | some t =>
          unfold do_POST
          rcases confirm_subscription snsConfirmOk cst with ⟨o, cst'⟩
          cases o <;> exact ⟨[PostEff.callConfirmSubscription], rfl⟩
  | notification mf =>
      cases mf with
      | missingKey => exact ⟨[], rfl⟩
      | emptyString => exact ⟨[], rfl⟩
      | badJson => exact ⟨[], rfl⟩
      | parsed n => exact ⟨[PostEff.callDispatchNotification], rfl⟩
  | otherType t => exact ⟨[], rfl⟩

/-- C9: the StopFlag discipline of `shutdown`.  From a stopped state the call
is a no-op: no effects, no unsubscribe, state untouched.  From a running
state it sets `stopped` (which the routine never resets) and invokes
unsubscribe, and any repeated invocation on the resulting state returns
immediately without repeating unsubscribe, acceptor stop, or thread join. -/
theorem C9_theorem (st : SubscriberState) (mpf ok : Bool) (subs : List Subscription)
    (topic url : String) :
    (st.stopped = true →
        shutdown st mpf ok subs topic url = ([], ShutdownOutcome.returnedNoOp, st)) ∧
    (st.stopped = false →
        (shutdown st mpf ok subs topic url).2.2.stopped = true ∧
        ShutdownEff.callUnsubscribe ∈ (shutdown st mpf ok subs topic url).1 ∧
        shutdown (shutdown st mpf ok subs topic url).2.2 mpf ok subs topic url =
          ([], ShutdownOutcome.returnedNoOp, (shutdown st mpf ok subs topic url).2.2)) := by
  have hnoop : ∀ s2 : SubscriberState, s2.stopped = true →
      shutdown s2 mpf ok subs topic url = ([], ShutdownOutcome.returnedNoOp, s2) := by
    intro s2 h2
    unfold shutdown
    rw [h2]
    rfl
  constructor
  · exact hnoop st
  · intro h
    have hmain : (shutdown st mpf ok subs topic url).2.2.stopped = true ∧
        ShutdownEff.callUnsubscribe ∈ (shutdown st mpf ok subs topic url).1 := by
      unfold shutdown
      rw [h]
      simp only [Bool.false_eq_true, if_false]
      rcases hr : unsubscribe mpf ok subs topic url with ⟨effs, o⟩
      cases o <;> simp
    exact ⟨hmain.1, hmain.2, hnoop _ hmain.1⟩

/-- C9 witness: shutdown on an already-stopped state is a no-op. -/
theorem C9_witness :
    shutdown { stopped := true, last_ping_sent := none, last_ping_received := none }
        true true [] "t" "u" =
      ([], ShutdownOutcome.returnedNoOp,
       { stopped := true, last_ping_sent := none, last_ping_received := none }) :=
  (C9_theorem { stopped := true, last_ping_sent := none, last_ping_received := none }
      true true [] "t" "u").1 rfl

/-- C10: `dispatch_notification` is total over arbitrary notification values
(non-dicts, dicts missing any of the command, handler_name, room or data
keys, unknown handlers, raising handlers): its own exception channel is
always `ok` — every exception of the body is absorbed by the bare except and
surfaces only as a logged `caughtLogged` result. -/
theorem C10_theorem (skills : List (String × Skill)) (n : Notif)
    (st : SubscriberState) (now : Nat) :
    ∃ st2 effs r, dispatch_notification skills n st now = (st2, effs, Except.ok r) := by
  unfold dispatch_notification
  rcases h : dispatchBody skills n st now with ⟨st2, effs, o⟩
  cases o with
  | ok u =>
      cases u
      exact ⟨st2, effs, DispatchResult.completed, rfl⟩
  | error e =>
      exact ⟨st2, effs, DispatchResult.caughtLogged e, rfl⟩

end AlexaChromecast
